import Mathlib

/-!
# Verification of the scheme-eligibility core

A shallow embedding of the core components of the `bharatam-ai` repository:
the eligibility evaluator (`app/services/eligibility.py`), the conversation
engine (`app/services/conversation.py`) and the knowledge base
(`app/services/knowledge_base.py`), together with the data model they share
(`app/models/user.py`, `app/models/scheme.py`, `app/models/conversation.py`).

Python `Optional` values become `Option`, Python `float` confidence scores and
embedding distances become exact rationals (`ℚ`), `datetime` values become
integer timestamps measured in seconds, and a raised exception becomes an
explicit `Option String` error component.  External collaborators (the
sentence-transformer embedding model and the FAISS index search, which live in
third-party libraries, not in this repository) are passed in as parameters:
an `encode` function for embeddings and a `hits` list for the rows that
`faiss.IndexFlatL2.search` returns.
-/

namespace Bharatam

/-! ## Data model: `app/models/user.py` -/

/-- `UserProfile` (app/models/user.py): all seven attributes optional. -/
structure UserProfile where
  age : Option Int
  state : Option String
  education_level : Option String
  income_range : Option String
  category : Option String
  occupation : Option String
  gender : Option String
deriving DecidableEq

/-- A profile with every field unset, as produced by `UserProfile()`. -/
def emptyProfile : UserProfile :=
  { age := none, state := none, education_level := none, income_range := none,
    category := none, occupation := none, gender := none }

/-! ## Data model: `app/models/scheme.py` -/

/-- `EligibilityCriteria` (app/models/scheme.py): per-attribute optional
constraints; `none` means the attribute does not restrict eligibility. -/
structure EligibilityCriteria where
  min_age : Option Int
  max_age : Option Int
  states : Option (List String)
  education_levels : Option (List String)
  income_max : Option Int
  categories : Option (List String)
  gender : Option String
  occupations : Option (List String)
deriving DecidableEq

/-- An `EligibilityCriteria` with no constraint set (all fields default `None`). -/
def noConstraints : EligibilityCriteria :=
  { min_age := none, max_age := none, states := none, education_levels := none,
    income_max := none, categories := none, gender := none, occupations := none }

/-- `Scheme` (app/models/scheme.py), restricted to the fields the verified
operations read: `id`, `name`, `description`, `benefits` and `eligibility`.
The remaining descriptive fields (translations, documents, URLs, timestamps)
are inert payload never inspected by the evaluator or the knowledge base. -/
structure Scheme where
  id : String
  name : String
  description : String
  benefits : String
  eligibility : EligibilityCriteria
deriving DecidableEq

/-- `EligibilityResult` (app/models/scheme.py).  The Python `float` confidence
is modelled as an exact rational. -/
structure EligibilityResult where
  scheme : Scheme
  is_eligible : Bool
  confidence : ℚ
  matching_criteria : List String
  missing_criteria : List String
  explanation : String
deriving DecidableEq

/-! ## String helpers for the f-string formatting used in eligibility.py -/

/-- Insert a `','` after every third character; applied to the reversed digit
list this reproduces Python's thousands-grouping format `f"{n:,}"`. -/
def insertCommas : List Char → List Char
  | a :: b :: c :: d :: rest => a :: b :: c :: ',' :: insertCommas (d :: rest)
  | l => l

/-- Python's `f"{n:,}"` thousands-separated integer format. -/
def commaFormat (n : Int) : String :=
  let digits := (toString n.natAbs).data
  (if n < 0 then "-" else "") ++ String.mk (insertCommas digits.reverse).reverse

/-! ## `EligibilityEngine` (app/services/eligibility.py)

`check_single_scheme` is one straight-line function in the source; it is
split here into one definition per criterion block (age, state, education,
income, category, gender, occupation), each returning the pair
(matching additions, missing additions) that the block appends to
`matching_criteria` and `missing_criteria`.  The source's `is_eligible` flag
starts `True` and is assigned `False` exactly in the statements that append a
missing item, so it equals "the missing list is empty".
-/

/-- `EligibilityEngine.INCOME_RANGES` together with the `.get(key, float('inf'))`
lookup in `check_single_scheme`: `none` stands for `float('inf')`, the value of
the `"above_8lakh"` entry and the default for unknown keys. -/
def INCOME_RANGES (key : String) : Option Int :=
  if key = "below_1lakh" then some 100000
  else if key = "1-3lakh" then some 300000
  else if key = "3-5lakh" then some 500000
  else if key = "5-8lakh" then some 800000
  else none

/-- The age criterion block of `check_single_scheme` (lines 42-60). -/
def ageCheck (p : UserProfile) (e : EligibilityCriteria) : List String × List String :=
  if e.min_age.isSome || e.max_age.isSome then
    match p.age with
    | none => ([], ["Age information required"])
    | some a =>
      let minMiss := match e.min_age with
        | some m => if a < m then ["Minimum age requirement: " ++ toString m ++ " years"] else []
        | none => []
      let maxMiss := match e.max_age with
        | some m => if a > m then ["Maximum age requirement: " ++ toString m ++ " years"] else []
        | none => []
      if minMiss.isEmpty && maxMiss.isEmpty then
        -- `age_range = f"{min_age or 0}-{max_age or '∞'}"`: Python `or` falls
        -- through on `None` and on the falsy integer `0`.
        let lo := toString (e.min_age.getD 0)
        let hi := match e.max_age with
          | some m => if m = 0 then "∞" else toString m
          | none => "∞"
        (["Age is within range (" ++ (lo ++ "-" ++ hi ++ " years)")], [])
      else ([], minMiss ++ maxMiss)
  else ([], [])

/-- The state criterion block of `check_single_scheme` (lines 62-71). -/
def stateCheck (p : UserProfile) (e : EligibilityCriteria) : List String × List String :=
  match e.states with
  | none => ([], [])
  | some sts =>
    match p.state with
    | none => ([], ["State information required"])
    | some s =>
      if s ∉ sts then ([], ["Scheme only available in: " ++ String.intercalate ", " sts])
      else (["State matches (" ++ (s ++ ")")], [])

/-- The education criterion block of `check_single_scheme` (lines 73-82). -/
def educationCheck (p : UserProfile) (e : EligibilityCriteria) : List String × List String :=
  match e.education_levels with
  | none => ([], [])
  | some lvls =>
    match p.education_level with
    | none => ([], ["Education level information required"])
    | some lvl =>
      if lvl ∉ lvls then ([], ["Required education: " ++ String.intercalate ", " lvls])
      else (["Education level matches (" ++ (lvl ++ ")")], [])

/-- The income criterion block of `check_single_scheme` (lines 84-95). -/
def incomeCheck (p : UserProfile) (e : EligibilityCriteria) : List String × List String :=
  match e.income_max with
  | none => ([], [])
  | some im =>
    match p.income_range with
    | none => ([], ["Income information required"])
    | some r =>
      match INCOME_RANGES r with
      | none =>
        -- `float('inf') > income_max` holds for every finite bound.
        ([], ["Maximum income requirement: Rs. " ++ (commaFormat im ++ " per year")])
      | some u =>
        if u > im then
          ([], ["Maximum income requirement: Rs. " ++ (commaFormat im ++ " per year")])
        else
          (["Income is within limit (Rs. " ++ (commaFormat im ++ " per year)")], [])

/-- The category criterion block of `check_single_scheme` (lines 97-106). -/
def categoryCheck (p : UserProfile) (e : EligibilityCriteria) : List String × List String :=
  match e.categories with
  | none => ([], [])
  | some cats =>
    match p.category with
    | none => ([], ["Category information required"])
    | some c =>
      if c ∉ cats then ([], ["Scheme only for: " ++ (String.intercalate ", " cats).toUpper])
      else (["Category matches (" ++ (c.toUpper ++ ")")], [])

/-- The gender criterion block of `check_single_scheme` (lines 108-117). -/
def genderCheck (p : UserProfile) (e : EligibilityCriteria) : List String × List String :=
  match e.gender with
  | none => ([], [])
  | some g =>
    match p.gender with
    | none => ([], ["Gender information required"])
    | some ug =>
      if ug ≠ g then ([], ["Scheme only for: " ++ g])
      else (["Gender matches (" ++ (ug ++ ")")], [])

/-- The occupation criterion block of `check_single_scheme` (lines 119-128). -/
def occupationCheck (p : UserProfile) (e : EligibilityCriteria) : List String × List String :=
  match e.occupations with
  | none => ([], [])
  | some occs =>
    match p.occupation with
    | none => ([], ["Occupation information required"])
    | some o =>
      if o ∉ occs then ([], ["Scheme only for: " ++ String.intercalate ", " occs])
      else (["Occupation matches (" ++ (o ++ ")")], [])

/-- `EligibilityEngine.generate_eligibility_explanation` (lines 173-206). -/
def generate_eligibility_explanation (s : Scheme) (is_eligible : Bool)
    (matching missing : List String) : String :=
  let text :=
    if is_eligible then
      "✅ You are eligible for " ++ s.name ++ "!\n\n" ++
        "You meet the following requirements:\n" ++
        String.join (matching.map (fun c => "  • " ++ c ++ "\n"))
    else
      "❌ You are not eligible for " ++ s.name ++ ".\n\n" ++
        (if missing.isEmpty then ""
         else "Reasons:\n" ++ String.join (missing.map (fun c => "  • " ++ c ++ "\n")))
  text.trim

/-- `EligibilityEngine.check_single_scheme` (lines 24-146): evaluate the seven
criterion blocks in source order, concatenate their contributions, and build
the result.  `is_eligible` equals "no missing item was appended". -/
def check_single_scheme (p : UserProfile) (s : Scheme) : EligibilityResult :=
  let e := s.eligibility
  let a := ageCheck p e
  let st := stateCheck p e
  let ed := educationCheck p e
  let inc := incomeCheck p e
  let cat := categoryCheck p e
  let g := genderCheck p e
  let oc := occupationCheck p e
  let matching := a.1 ++ st.1 ++ ed.1 ++ inc.1 ++ cat.1 ++ g.1 ++ oc.1
  let missing := a.2 ++ st.2 ++ ed.2 ++ inc.2 ++ cat.2 ++ g.2 ++ oc.2
  let is_eligible := missing.isEmpty
  let total := matching.length + missing.length
  let confidence : ℚ := if total > 0 then (matching.length : ℚ) / (total : ℚ) else 0
  { scheme := s, is_eligible := is_eligible, confidence := confidence,
    matching_criteria := matching, missing_criteria := missing,
    explanation := generate_eligibility_explanation s is_eligible matching missing }

/-- The list comprehension of `determine_eligibility` before sorting: evaluate
every scheme and retain the eligible results in catalog order. -/
def eligible_results (p : UserProfile) (schemes : List Scheme) : List EligibilityResult :=
  (schemes.map (check_single_scheme p)).filter (fun r => r.is_eligible)

/-- The comparison realising
`results.sort(key=lambda r: len(r.matching_criteria), reverse=True)`:
`a` may come before `b` when `b` has at most as many matching criteria. -/
def rankLE (a b : EligibilityResult) : Bool :=
  decide (b.matching_criteria.length ≤ a.matching_criteria.length)

/-- `EligibilityEngine.determine_eligibility` (lines 148-171).  Python's
`list.sort` is a stable sort, and with `reverse=True` it keeps equal-key
elements in their original relative order; `List.mergeSort` has exactly this
stability property. -/
def determine_eligibility (p : UserProfile) (schemes : List Scheme) :
    List EligibilityResult :=
  (eligible_results p schemes).mergeSort rankLE

/-! ## Data model: `app/models/conversation.py` -/

/-- `Message` (app/models/conversation.py); timestamps in seconds. -/
structure Message where
  role : String
  content : String
  timestamp : Int
deriving DecidableEq

/-- `ConversationState` (app/models/conversation.py). -/
structure ConversationState where
  session_id : String
  language : String
  user_profile : UserProfile
  asked_questions : List String
  current_stage : String
  conversation_history : List Message
  created_at : Int
  last_activity : Int
deriving DecidableEq

/-! ## `ConversationEngine` (app/services/conversation.py)

The class-level `_sessions` dictionary becomes an explicit association list
with unique keys; each call to `datetime.now()` becomes an explicit `now`
parameter; methods mutating `self` or a `ConversationState` return the updated
value.  `get_next_question` takes no `now` parameter because its source never
calls `datetime.now()`.
-/

/-- `ConversationEngine.SESSION_TIMEOUT`, 30 minutes, in seconds. -/
def SESSION_TIMEOUT : Int := 30 * 60

/-- One entry of the `QUESTIONS` class dictionary: the English and Hindi texts. -/
structure QuestionTexts where
  en : String
  hi : String
deriving DecidableEq

/-- `ConversationEngine.QUESTIONS` (lines 35-64).  The dictionary holds exactly
the seven field names scanned by `get_next_question`; the final catch-all
branch is never reached from `get_next_question`. -/
def QUESTIONS (field : String) : QuestionTexts :=
  if field = "age" then
    { en := "How old are you?", hi := "आपकी उम्र क्या है?" }
  else if field = "state" then
    { en := "Which state do you live in?", hi := "आप किस राज्य में रहते हैं?" }
  else if field = "education_level" then
    { en := "What is your highest education level? (e.g., 10th pass, 12th pass, graduate, postgraduate)",
      hi := "आपकी उच्चतम शिक्षा स्तर क्या है? (जैसे, 10वीं पास, 12वीं पास, स्नातक, स्नातकोत्तर)" }
  else if field = "income_range" then
    { en := "What is your annual household income range? (e.g., below 1 lakh, 1-3 lakh, 3-5 lakh, above 5 lakh)",
      hi := "आपकी वार्षिक घरेलू आय सीमा क्या है? (जैसे, 1 लाख से कम, 1-3 लाख, 3-5 लाख, 5 लाख से अधिक)" }
  else if field = "category" then
    { en := "What is your social category? (General, SC, ST, OBC)",
      hi := "आपकी सामाजिक श्रेणी क्या है? (सामान्य, अनुसूचित जाति, अनुसूचित जनजाति, अन्य पिछड़ा वर्ग)" }
  else if field = "gender" then
    { en := "What is your gender? (male, female, other)",
      hi := "आपका लिंग क्या है? (पुरुष, महिला, अन्य)" }
  else if field = "occupation" then
    { en := "What is your occupation? (e.g., student, farmer, self-employed, unemployed)",
      hi := "आपका व्यवसाय क्या है? (जैसे, छात्र, किसान, स्व-रोजगार, बेरोजगार)" }
  else { en := "", hi := "" }

/-- `self.QUESTIONS[field_name].get(language, self.QUESTIONS[field_name]["en"])`:
the per-question dictionary has exactly the keys `"en"` and `"hi"`, so the
lookup returns the Hindi text when `language = "hi"` and otherwise falls back
to the English text. -/
def question_text (field language : String) : String :=
  if language = "hi" then (QUESTIONS field).hi else (QUESTIONS field).en

/-- `ConversationEngine.GREETINGS` together with
`self.GREETINGS.get(language, self.GREETINGS["en"])`. -/
def greeting_text (language : String) : String :=
  if language = "hi" then
    "नमस्ते! मैं भारतम AI हूं, सरकारी कल्याण योजनाओं की खोज के लिए आपका सहायक। मैं आपकी आवश्यकताओं को समझने और आपके लिए उपयुक्त योजनाओं को खोजने के लिए कुछ प्रश्न पूछूंगा। चलिए शुरू करते हैं!"
  else
    "Hello! I'm Bharatam AI, your assistant for discovering government welfare schemes. I'll ask you a few questions to understand your needs and find schemes you're eligible for. Let's get started!"

/-- `ConversationEngine._add_message` (lines 287-302): append a message and
refresh `last_activity`. -/
def _add_message (now : Int) (st : ConversationState) (role content : String) :
    ConversationState :=
  { st with
    conversation_history := st.conversation_history ++ [⟨role, content, now⟩],
    last_activity := now }

/-- `ConversationEngine.start_conversation` (lines 76-108), minus the
uuid-generated session id, which is passed in. -/
def start_conversation (session_id language : String) (now : Int) : ConversationState :=
  let st : ConversationState :=
    { session_id := session_id, language := language, user_profile := emptyProfile,
      current_stage := "greeting", conversation_history := [], asked_questions := [],
      created_at := now, last_activity := now }
  _add_message now st "assistant" (greeting_text language)

/-- The `question_order` list of `get_next_question` (lines 199-207); the loop
only tests each `field_value is None`, so the pair carries that Boolean. -/
def question_order (profile : UserProfile) : List (String × Bool) :=
  [("age", profile.age.isNone),
   ("state", profile.state.isNone),
   ("education_level", profile.education_level.isNone),
   ("income_range", profile.income_range.isNone),
   ("category", profile.category.isNone),
   ("gender", profile.gender.isNone),
   ("occupation", profile.occupation.isNone)]

/-- The scan loop of `get_next_question` (lines 210-215): the first field that
is both unset and not yet in `asked_questions`. -/
def find_next_field (asked : List String) : List (String × Bool) → Option String
  | [] => none
  | (name, isMissing) :: rest =>
    if isMissing && !(asked.contains name) then some name
    else find_next_field asked rest

/-- `ConversationEngine.get_next_question` (lines 171-218), returning the
updated state together with the optional question text.  The source mutates
`current_stage` and `asked_questions` but contains no `datetime.now()` call,
so `last_activity` is left untouched. -/
def get_next_question (st : ConversationState) : ConversationState × Option String :=
  let st1 := if st.current_stage = "greeting"
    then { st with current_stage := "info_collection" } else st
  if st1.current_stage ≠ "info_collection" then (st1, none)
  else
    match find_next_field st1.asked_questions (question_order st1.user_profile) with
    | some name =>
      ({ st1 with asked_questions := st1.asked_questions ++ [name] },
       some (question_text name st1.language))
    | none => (st1, none)

/-- `ConversationEngine.is_information_complete` (lines 220-241). -/
def is_information_complete (st : ConversationState) : Bool :=
  !(st.user_profile.age.isNone || st.user_profile.state.isNone)

/-- The attribute names of `UserProfile`; `hasattr(state.user_profile, field)`
holds exactly for these. -/
def PROFILE_FIELDS : List String :=
  ["age", "state", "education_level", "income_range", "category", "occupation", "gender"]

/-- The value handed to `update_user_profile`; Python passes an untyped value,
and every caller passes an `int` for `age` and a `str` for the other fields. -/
inductive FieldValue where
  | int (n : Int)
  | str (s : String)
deriving DecidableEq

/-- `setattr(state.user_profile, field, value)` for the seven profile fields.
Python's `setattr` is untyped; the model records the write when the value has
the field's type and no caller exercises a mismatch. -/
def set_profile_field (p : UserProfile) (field : String) (v : FieldValue) : UserProfile :=
  match field, v with
  | "age", .int n => { p with age := some n }
  | "state", .str s => { p with state := some s }
  | "education_level", .str s => { p with education_level := some s }
  | "income_range", .str s => { p with income_range := some s }
  | "category", .str s => { p with category := some s }
  | "occupation", .str s => { p with occupation := some s }
  | "gender", .str s => { p with gender := some s }
  | _, _ => p

/-- `ConversationEngine.update_user_profile` (lines 243-261): guarded by
`hasattr`, writes the field and refreshes `last_activity`. -/
def update_user_profile (now : Int) (st : ConversationState) (field : String)
    (v : FieldValue) : ConversationState :=
  if field ∈ PROFILE_FIELDS then
    { st with user_profile := set_profile_field st.user_profile field v,
              last_activity := now }
  else st

/-- `ConversationEngine.add_user_message` (lines 263-273). -/
def add_user_message (now : Int) (st : ConversationState) (content : String) :
    ConversationState :=
  _add_message now st "user" content

/-- `ConversationEngine.add_assistant_message` (lines 275-285). -/
def add_assistant_message (now : Int) (st : ConversationState) (content : String) :
    ConversationState :=
  _add_message now st "assistant" content

/-- `ConversationEngine.transition_to_eligibility` (lines 335-346). -/
def transition_to_eligibility (now : Int) (st : ConversationState) : ConversationState :=
  if is_information_complete st then
    { st with current_stage := "eligibility", last_activity := now }
  else st

/-- `ConversationEngine.transition_to_guidance` (lines 348-358). -/
def transition_to_guidance (now : Int) (st : ConversationState) : ConversationState :=
  { st with current_stage := "guidance", last_activity := now }

/-- The class-level `_sessions` dictionary of `ConversationEngine`: an
association list whose keys (session ids) are unique, as in a Python dict. -/
structure ConversationEngine where
  sessions : List (String × ConversationState)
deriving DecidableEq

/-- `ConversationEngine.get_active_sessions_count` (lines 388-396). -/
def get_active_sessions_count (eng : ConversationEngine) : Nat :=
  eng.sessions.length

/-- `ConversationEngine.end_conversation` (lines 134-149): `del` removes the
entry with the given key. -/
def end_conversation (eng : ConversationEngine) (session_id : String) :
    ConversationEngine × Bool :=
  if (eng.sessions.lookup session_id).isSome then
    ({ sessions := eng.sessions.filter (fun kv => !(kv.1 == session_id)) }, true)
  else (eng, false)

/-- `ConversationEngine.get_session` (lines 110-132): a session past the
timeout is deleted via `end_conversation` and reported as not found. -/
def get_session (now : Int) (eng : ConversationEngine) (session_id : String) :
    ConversationEngine × Option ConversationState :=
  match eng.sessions.lookup session_id with
  | none => (eng, none)
  | some st =>
    if now - st.last_activity > SESSION_TIMEOUT then
      ((end_conversation eng session_id).1, none)
    else (eng, some st)

/-- `ConversationEngine.cleanup_expired_sessions` (lines 151-169): delete every
session past the timeout and report how many were removed. -/
def cleanup_expired_sessions (now : Int) (eng : ConversationEngine) :
    ConversationEngine × Nat :=
  let expired := eng.sessions.filter (fun kv => decide (now - kv.2.last_activity > SESSION_TIMEOUT))
  ({ sessions := eng.sessions.filter (fun kv => !(decide (now - kv.2.last_activity > SESSION_TIMEOUT))) },
   expired.length)

/-! ## `KnowledgeBase` (app/services/knowledge_base.py)

The sentence-transformer model and the FAISS index are third-party
collaborators.  The embedding model is passed in as an `encode` function, and
the rows returned by `self.index.search(query_embedding, min(top_k * 2,
len(self.schemes)))` — pairs of a vector position and its distance, in the
index's ascending-distance order — are passed in as a `hits` list.  FAISS
returns at most as many rows as were requested, which the theorems take as the
hypothesis `hits.length ≤ top_k * 2`.  Distances are modelled as rationals.
-/

/-- The mutable state of a `KnowledgeBase` instance: the parallel scheme list
and the vectors stored in the `IndexFlatL2`. -/
structure KnowledgeBase where
  schemes : List Scheme
  index : List (List ℚ)
deriving DecidableEq

/-- `KnowledgeBase._create_searchable_text` (lines 51-68). -/
def _create_searchable_text (s : Scheme) : String :=
  String.intercalate " " [s.name, s.description, "Benefits: " ++ s.benefits]

/-- `KnowledgeBase.index_schemes` (lines 70-93).  The `raise ValueError` on an
empty list happens before any assignment to `self`, so the error component is
returned alongside the untouched state. -/
def index_schemes (encode : String → List ℚ) (kb : KnowledgeBase)
    (schemes : List Scheme) : KnowledgeBase × Option String :=
  if schemes.isEmpty then (kb, some "Cannot index empty scheme list")
  else
    ({ schemes := schemes,
       index := schemes.map (fun s => encode (_create_searchable_text s)) }, none)

/-- The filter dictionary accepted by `retrieve_schemes`: the four keys
`_matches_filters` branches on.  The `min_age`/`max_age` values arrive as
strings and are read with `int(value)`; the model carries the parsed integer. -/
structure Filters where
  state : Option String
  category : Option String
  min_age : Option Int
  max_age : Option Int
deriving DecidableEq

/-- `KnowledgeBase._matches_filters` (lines 146-174).  Each present key must
not reject; the `"category"` branch is `pass` and never rejects.  Python
truthiness guards the scheme-side values: an empty `states` list, and a
`min_age`/`max_age` equal to `0`, are falsy and skip the comparison. -/
def _matches_filters (s : Scheme) (f : Filters) : Bool :=
  (match f.state with
   | some v =>
     match s.eligibility.states with
     | some sts => if sts.isEmpty then true else sts.contains v
     | none => true
   | none => true)
  &&
  -- the `"category"` key: `pass`
  true
  &&
  (match f.min_age with
   | some v =>
     match s.eligibility.min_age with
     | some m => !(decide (m ≠ 0) && decide (m > v))
     | none => true
   | none => true)
  &&
  (match f.max_age with
   | some v =>
     match s.eligibility.max_age with
     | some m => !(decide (m ≠ 0) && decide (m < v))
     | none => true
   | none => true)

/-- A placeholder scheme for out-of-range list indexing; the result-collection
loop only indexes behind its `idx < len(self.schemes)` guard. -/
def dummyScheme : Scheme :=
  { id := "", name := "", description := "", benefits := "", eligibility := noConstraints }

/-- `similarity = 1.0 / (1.0 + distance)` (line 138). -/
def similarity (d : ℚ) : ℚ := 1 / (1 + d)

/-- The `if filters: if not self._matches_filters(scheme, filters): continue`
guard of the collection loop: with no filter dictionary nothing is skipped. -/
def loopSkips (filters : Option Filters) (scheme : Scheme) : Bool :=
  match filters with
  | some f => !(_matches_filters scheme f)
  | none => false

/-- The result-collection loop of `retrieve_schemes` (lines 127-142): walk the
search rows in order, skip out-of-range positions, drop candidates rejected by
the filters, convert each surviving distance to a similarity, and stop once
`top_k` results have been collected.  `cnt` is `len(results)` so far. -/
def retrieveLoop (schemes : List Scheme) (filters : Option Filters) (top_k : Nat) :
    Nat → List (Nat × ℚ) → List (Scheme × ℚ)
  | _, [] => []
  | cnt, (idx, d) :: rest =>
    if idx < schemes.length then
      let scheme := schemes.getD idx dummyScheme
      if loopSkips filters scheme then
        retrieveLoop schemes filters top_k cnt rest
      else
        (scheme, similarity d) ::
          (if cnt + 1 ≥ top_k then [] else retrieveLoop schemes filters top_k (cnt + 1) rest)
    else retrieveLoop schemes filters top_k cnt rest

/-- `KnowledgeBase.retrieve_schemes` (lines 95-144): an unbuilt index
(`if not self.schemes`) yields `[]`; otherwise the collection loop runs over
the rows the FAISS search returned. -/
def retrieve_schemes (kb : KnowledgeBase) (hits : List (Nat × ℚ)) (top_k : Nat)
    (filters : Option Filters) : List (Scheme × ℚ) :=
  if kb.schemes.isEmpty then []
  else retrieveLoop kb.schemes filters top_k 0 hits

/-- The predicate deciding whether a search row survives the loop's guard and
filters: its position is in range and the loop's filter guard does not skip
the scheme at it. -/
def passes (schemes : List Scheme) (filters : Option Filters) (h : Nat × ℚ) : Bool :=
  decide (h.1 < schemes.length) && !(loopSkips filters (schemes.getD h.1 dummyScheme))

/-! ## Concrete fixtures used by the witness theorems -/

/-- A scheme constraining all seven attribute families. -/
def fullyConstrainedScheme : Scheme :=
  { id := "w3", name := "W3", description := "d", benefits := "b",
    eligibility :=
      { min_age := some 18, max_age := some 35, states := some ["Karnataka"],
        education_levels := some ["graduate"], income_max := some 300000,
        categories := some ["general"], gender := some "female",
        occupations := some ["student"] } }

/-- A profile that has answered only the income question, with the second
bracket. -/
def incomeOnlyProfile : UserProfile :=
  { emptyProfile with income_range := some "1-3lakh" }

/-- A scheme constraining only the income ceiling. -/
def incomeOnlyScheme : Scheme :=
  { id := "w4", name := "W4", description := "d", benefits := "b",
    eligibility := { noConstraints with income_max := some 300000 } }

/-- A profile that has answered only the age question. -/
def ageOnlyProfile : UserProfile := { emptyProfile with age := some 25 }

/-- A scheme constraining only a minimum age. -/
def minAgeScheme1 : Scheme :=
  { id := "w1a", name := "W1A", description := "d", benefits := "b",
    eligibility := { noConstraints with min_age := some 18 } }

/-- A second scheme with the same single constraint. -/
def minAgeScheme2 : Scheme :=
  { id := "w1b", name := "W1B", description := "d", benefits := "b",
    eligibility := { noConstraints with min_age := some 21 } }

/-- Iterate `get_next_question` `n` times, collecting the returned prompts and
threading the mutated session state. -/
def next_questions : Nat → ConversationState → List (Option String) × ConversationState
  | 0, st => ([], st)
  | n + 1, st =>
    let r := get_next_question st
    let rest := next_questions n r.1
    (r.2 :: rest.1, rest.2)

/-- A profile meeting the completion gate (age and state set). -/
def completeProfile : UserProfile :=
  { emptyProfile with age := some 30, state := some "Karnataka" }

/-- A session whose profile meets the completion gate. -/
def completeSession : ConversationState :=
  { start_conversation "w7" "en" 0 with user_profile := completeProfile }

/-- A two-scheme knowledge base. -/
def kbFixture : KnowledgeBase :=
  { schemes := [minAgeScheme1, minAgeScheme2], index := [[0], [1]] }

/-- A one-session engine whose session was last active at time 0. -/
def engineFixture : ConversationEngine :=
  { sessions := [("wsid", start_conversation "wsid" "en" 0)] }

/-! ## Basic facts about `check_single_scheme` -/

/-- The matching list is the concatenation of the seven blocks in source order. -/
theorem matching_criteria_eq (p : UserProfile) (s : Scheme) :
    (check_single_scheme p s).matching_criteria =
      (ageCheck p s.eligibility).1 ++ (stateCheck p s.eligibility).1 ++
        (educationCheck p s.eligibility).1 ++ (incomeCheck p s.eligibility).1 ++
        (categoryCheck p s.eligibility).1 ++ (genderCheck p s.eligibility).1 ++
        (occupationCheck p s.eligibility).1 := rfl

/-- The missing list is the concatenation of the seven blocks in source order. -/
theorem missing_criteria_eq (p : UserProfile) (s : Scheme) :
    (check_single_scheme p s).missing_criteria =
      (ageCheck p s.eligibility).2 ++ (stateCheck p s.eligibility).2 ++
        (educationCheck p s.eligibility).2 ++ (incomeCheck p s.eligibility).2 ++
        (categoryCheck p s.eligibility).2 ++ (genderCheck p s.eligibility).2 ++
        (occupationCheck p s.eligibility).2 := rfl

/-- `is_eligible` holds iff no missing item was recorded. -/
theorem is_eligible_eq (p : UserProfile) (s : Scheme) :
    (check_single_scheme p s).is_eligible =
      (check_single_scheme p s).missing_criteria.isEmpty := rfl

/-- The stored confidence is the ratio computed from the stored lists. -/
theorem confidence_eq (p : UserProfile) (s : Scheme) :
    (check_single_scheme p s).confidence =
      (if (check_single_scheme p s).matching_criteria.length +
           (check_single_scheme p s).missing_criteria.length > 0 then
        ((check_single_scheme p s).matching_criteria.length : ℚ) /
          (((check_single_scheme p s).matching_criteria.length +
            (check_single_scheme p s).missing_criteria.length : ℕ) : ℚ)
       else 0) := rfl

/-- With no constraints set, every block contributes nothing, so the result is
eligible with confidence `0` and empty lists. -/
theorem check_single_scheme_noConstraints (p : UserProfile) (s : Scheme)
    (h : s.eligibility = noConstraints) :
    check_single_scheme p s =
      { scheme := s, is_eligible := true, confidence := 0,
        matching_criteria := [], missing_criteria := [],
        explanation := generate_eligibility_explanation s true [] [] } := by
  simp only [check_single_scheme, h]
  rfl

/-- C2: for every profile and scheme, the confidence of `check_single_scheme`
equals `|satisfied| / (|satisfied| + |unsatisfied|)` over the lists it
produces, and `0` when both lists are empty; and a scheme whose rule set has
no constraints set yields an eligible verdict with confidence `0`. -/
theorem C2_confidence_ratio (p : UserProfile) (s : Scheme) :
    ((check_single_scheme p s).confidence =
      if (check_single_scheme p s).matching_criteria.length +
          (check_single_scheme p s).missing_criteria.length = 0 then 0
      else ((check_single_scheme p s).matching_criteria.length : ℚ) /
        (((check_single_scheme p s).matching_criteria.length : ℚ) +
          ((check_single_scheme p s).missing_criteria.length : ℚ))) ∧
    (s.eligibility = noConstraints →
      (check_single_scheme p s).is_eligible = true ∧
      (check_single_scheme p s).confidence = 0) := by
  constructor
  · rw [confidence_eq]
    rcases Nat.eq_zero_or_pos ((check_single_scheme p s).matching_criteria.length +
      (check_single_scheme p s).missing_criteria.length) with h | h
    · simp [h]
    · rw [if_pos h, if_neg (by omega), Nat.cast_add]
  · intro h
    rw [check_single_scheme_noConstraints p s h]
    exact ⟨rfl, rfl⟩

/-- Witness for C2 at a concrete unconstrained scheme. -/
theorem C2_confidence_ratio_witness :
    (check_single_scheme emptyProfile
      { id := "w2", name := "W2", description := "d", benefits := "b",
        eligibility := noConstraints }).is_eligible = true ∧
    (check_single_scheme emptyProfile
      { id := "w2", name := "W2", description := "d", benefits := "b",
        eligibility := noConstraints }).confidence = 0 :=
  (C2_confidence_ratio emptyProfile
    { id := "w2", name := "W2", description := "d", benefits := "b",
      eligibility := noConstraints }).2 rfl

/-! ## C3: an unset constrained attribute is a hard failure -/

theorem ageCheck_unset {p : UserProfile} {e : EligibilityCriteria}
    (hc : e.min_age ≠ none ∨ e.max_age ≠ none) (ha : p.age = none) :
    (ageCheck p e).2 = ["Age information required"] := by
  cases hmin : e.min_age <;> cases hmax : e.max_age <;>
    simp_all [ageCheck]

theorem stateCheck_unset {p : UserProfile} {e : EligibilityCriteria}
    (hc : e.states ≠ none) (ha : p.state = none) :
    (stateCheck p e).2 = ["State information required"] := by
  cases h : e.states <;> simp_all [stateCheck]

theorem educationCheck_unset {p : UserProfile} {e : EligibilityCriteria}
    (hc : e.education_levels ≠ none) (ha : p.education_level = none) :
    (educationCheck p e).2 = ["Education level information required"] := by
  cases h : e.education_levels <;> simp_all [educationCheck]

theorem incomeCheck_unset {p : UserProfile} {e : EligibilityCriteria}
    (hc : e.income_max ≠ none) (ha : p.income_range = none) :
    (incomeCheck p e).2 = ["Income information required"] := by
  cases h : e.income_max <;> simp_all [incomeCheck]

theorem categoryCheck_unset {p : UserProfile} {e : EligibilityCriteria}
    (hc : e.categories ≠ none) (ha : p.category = none) :
    (categoryCheck p e).2 = ["Category information required"] := by
  cases h : e.categories <;> simp_all [categoryCheck]

theorem genderCheck_unset {p : UserProfile} {e : EligibilityCriteria}
    (hc : e.gender ≠ none) (ha : p.gender = none) :
    (genderCheck p e).2 = ["Gender information required"] := by
  cases h : e.gender <;> simp_all [genderCheck]

theorem occupationCheck_unset {p : UserProfile} {e : EligibilityCriteria}
    (hc : e.occupations ≠ none) (ha : p.occupation = none) :
    (occupationCheck p e).2 = ["Occupation information required"] := by
  cases h : e.occupations <;> simp_all [occupationCheck]

/-- A result with a nonempty missing list is ineligible. -/
theorem ineligible_of_missing {p : UserProfile} {s : Scheme} {msg : String}
    (h : msg ∈ (check_single_scheme p s).missing_criteria) :
    (check_single_scheme p s).is_eligible = false := by
  rw [is_eligible_eq]
  rcases hm : (check_single_scheme p s).missing_criteria with _ | ⟨a, l⟩
  · rw [hm] at h; cases h
  · rfl

/-- C3: for each of the seven attribute families on which the scheme carries a
constraint, an unset profile attribute records the family's
information-required item in the missing list and forces an ineligible
verdict. -/
theorem C3_unset_attribute_hard_failure (p : UserProfile) (s : Scheme) :
    ((s.eligibility.min_age ≠ none ∨ s.eligibility.max_age ≠ none) → p.age = none →
      "Age information required" ∈ (check_single_scheme p s).missing_criteria ∧
      (check_single_scheme p s).is_eligible = false) ∧
    (s.eligibility.states ≠ none → p.state = none →
      "State information required" ∈ (check_single_scheme p s).missing_criteria ∧
      (check_single_scheme p s).is_eligible = false) ∧
    (s.eligibility.education_levels ≠ none → p.education_level = none →
      "Education level information required" ∈ (check_single_scheme p s).missing_criteria ∧
      (check_single_scheme p s).is_eligible = false) ∧
    (s.eligibility.income_max ≠ none → p.income_range = none →
      "Income information required" ∈ (check_single_scheme p s).missing_criteria ∧
      (check_single_scheme p s).is_eligible = false) ∧
    (s.eligibility.categories ≠ none → p.category = none →
      "Category information required" ∈ (check_single_scheme p s).missing_criteria ∧
      (check_single_scheme p s).is_eligible = false) ∧
    (s.eligibility.gender ≠ none → p.gender = none →
      "Gender information required" ∈ (check_single_scheme p s).missing_criteria ∧
      (check_single_scheme p s).is_eligible = false) ∧
    (s.eligibility.occupations ≠ none → p.occupation = none →
      "Occupation information required" ∈ (check_single_scheme p s).missing_criteria ∧
      (check_single_scheme p s).is_eligible = false) := by
  refine ⟨fun hc ha => ?_, fun hc ha => ?_, fun hc ha => ?_, fun hc ha => ?_,
    fun hc ha => ?_, fun hc ha => ?_, fun hc ha => ?_⟩
  · have hmem : "Age information required" ∈ (check_single_scheme p s).missing_criteria := by
      rw [missing_criteria_eq, ageCheck_unset hc ha]; simp
    exact ⟨hmem, ineligible_of_missing hmem⟩
  · have hmem : "State information required" ∈ (check_single_scheme p s).missing_criteria := by
      rw [missing_criteria_eq, stateCheck_unset hc ha]; simp
    exact ⟨hmem, ineligible_of_missing hmem⟩
  · have hmem : "Education level information required" ∈
        (check_single_scheme p s).missing_criteria := by
      rw [missing_criteria_eq, educationCheck_unset hc ha]; simp
    exact ⟨hmem, ineligible_of_missing hmem⟩
  · have hmem : "Income information required" ∈ (check_single_scheme p s).missing_criteria := by
      rw [missing_criteria_eq, incomeCheck_unset hc ha]; simp
    exact ⟨hmem, ineligible_of_missing hmem⟩
  · have hmem : "Category information required" ∈ (check_single_scheme p s).missing_criteria := by
      rw [missing_criteria_eq, categoryCheck_unset hc ha]; simp
    exact ⟨hmem, ineligible_of_missing hmem⟩
  · have hmem : "Gender information required" ∈ (check_single_scheme p s).missing_criteria := by
      rw [missing_criteria_eq, genderCheck_unset hc ha]; simp
    exact ⟨hmem, ineligible_of_missing hmem⟩
  · have hmem : "Occupation information required" ∈
        (check_single_scheme p s).missing_criteria := by
      rw [missing_criteria_eq, occupationCheck_unset hc ha]; simp
    exact ⟨hmem, ineligible_of_missing hmem⟩

/-- Witness for C3: a fully constrained scheme against an empty profile. -/
theorem C3_unset_attribute_hard_failure_witness :
    ("Age information required" ∈
        (check_single_scheme emptyProfile fullyConstrainedScheme).missing_criteria ∧
      (check_single_scheme emptyProfile fullyConstrainedScheme).is_eligible = false) ∧
    ("Gender information required" ∈
        (check_single_scheme emptyProfile fullyConstrainedScheme).missing_criteria ∧
      (check_single_scheme emptyProfile fullyConstrainedScheme).is_eligible = false) := by
  have h := C3_unset_attribute_hard_failure emptyProfile fullyConstrainedScheme
  exact ⟨h.1 (Or.inl (by simp [fullyConstrainedScheme])) rfl,
    h.2.2.2.2.2.1 (by simp [fullyConstrainedScheme]) rfl⟩

/-! ## C4: income-bracket semantics

The satisfied-income item is the only matching-list entry beginning with the
character `I`, so its membership in the combined matching list is equivalent
to the income block having produced it.
-/

/-- The satisfied-income description produced by the income block. -/
def income_within_msg (im : Int) : String :=
  "Income is within limit (Rs. " ++ (commaFormat im ++ " per year)")

/-- Two strings with distinct head characters stay distinct under appends. -/
theorem append_ne_of_head_ne {c d : Char} {as bs : List Char} (a b x y : String)
    (ha : a.data = c :: as) (hb : b.data = d :: bs) (hcd : c ≠ d) :
    a ++ x ≠ b ++ y := by
  intro h
  have h2 := congrArg String.data h
  rw [String.data_append, String.data_append, ha, hb] at h2
  simp only [List.cons_append, List.cons.injEq] at h2
  exact hcd h2.1

theorem ageCheck_fst_shape (p : UserProfile) (e : EligibilityCriteria) :
    (ageCheck p e).1 = [] ∨ ∃ r, (ageCheck p e).1 = ["Age is within range (" ++ r] := by
  unfold ageCheck
  split
  · rcases p.age with _ | a
    · exact Or.inl rfl
    · dsimp only
      split
      · exact Or.inr ⟨_, rfl⟩
      · exact Or.inl rfl
  · exact Or.inl rfl

theorem stateCheck_fst_shape (p : UserProfile) (e : EligibilityCriteria) :
    (stateCheck p e).1 = [] ∨ ∃ r, (stateCheck p e).1 = ["State matches (" ++ r] := by
  unfold stateCheck
  rcases e.states with _ | sts
  · exact Or.inl rfl
  · rcases p.state with _ | st
    · exact Or.inl rfl
    · dsimp only
      split
      · exact Or.inl rfl
      · exact Or.inr ⟨st ++ ")", rfl⟩

theorem educationCheck_fst_shape (p : UserProfile) (e : EligibilityCriteria) :
    (educationCheck p e).1 = [] ∨
      ∃ r, (educationCheck p e).1 = ["Education level matches (" ++ r] := by
  unfold educationCheck
  rcases e.education_levels with _ | lvls
  · exact Or.inl rfl
  · rcases p.education_level with _ | lvl
    · exact Or.inl rfl
    · dsimp only
      split
      · exact Or.inl rfl
      · exact Or.inr ⟨lvl ++ ")", rfl⟩

theorem categoryCheck_fst_shape (p : UserProfile) (e : EligibilityCriteria) :
    (categoryCheck p e).1 = [] ∨
      ∃ r, (categoryCheck p e).1 = ["Category matches (" ++ r] := by
  unfold categoryCheck
  rcases e.categories with _ | cats
  · exact Or.inl rfl
  · rcases p.category with _ | c
    · exact Or.inl rfl
    · dsimp only
      split
      · exact Or.inl rfl
      · exact Or.inr ⟨c.toUpper ++ ")", rfl⟩

theorem genderCheck_fst_shape (p : UserProfile) (e : EligibilityCriteria) :
    (genderCheck p e).1 = [] ∨ ∃ r, (genderCheck p e).1 = ["Gender matches (" ++ r] := by
  unfold genderCheck
  rcases e.gender with _ | g
  · exact Or.inl rfl
  · rcases p.gender with _ | ug
    · exact Or.inl rfl
    · dsimp only
      split
      · exact Or.inl rfl
      · exact Or.inr ⟨ug ++ ")", rfl⟩

theorem occupationCheck_fst_shape (p : UserProfile) (e : EligibilityCriteria) :
    (occupationCheck p e).1 = [] ∨
      ∃ r, (occupationCheck p e).1 = ["Occupation matches (" ++ r] := by
  unfold occupationCheck
  rcases e.occupations with _ | occs
  · exact Or.inl rfl
  · rcases p.occupation with _ | o
    · exact Or.inl rfl
    · dsimp only
      split
      · exact Or.inl rfl
      · exact Or.inr ⟨o ++ ")", rfl⟩

theorem income_msg_notin_ageCheck (p : UserProfile) (e : EligibilityCriteria) (im : Int) :
    income_within_msg im ∉ (ageCheck p e).1 := by
  intro h
  rcases ageCheck_fst_shape p e with hs | ⟨r, hs⟩ <;> rw [hs] at h
  · cases h
  · exact append_ne_of_head_ne _ _ _ _ rfl rfl (by decide) (List.mem_singleton.mp h)

theorem income_msg_notin_stateCheck (p : UserProfile) (e : EligibilityCriteria) (im : Int) :
    income_within_msg im ∉ (stateCheck p e).1 := by
  intro h
  rcases stateCheck_fst_shape p e with hs | ⟨r, hs⟩ <;> rw [hs] at h
  · cases h
  · exact append_ne_of_head_ne _ _ _ _ rfl rfl (by decide) (List.mem_singleton.mp h)

theorem income_msg_notin_educationCheck (p : UserProfile) (e : EligibilityCriteria) (im : Int) :
    income_within_msg im ∉ (educationCheck p e).1 := by
  intro h
  rcases educationCheck_fst_shape p e with hs | ⟨r, hs⟩ <;> rw [hs] at h
  · cases h
  · exact append_ne_of_head_ne _ _ _ _ rfl rfl (by decide) (List.mem_singleton.mp h)

theorem income_msg_notin_categoryCheck (p : UserProfile) (e : EligibilityCriteria) (im : Int) :
    income_within_msg im ∉ (categoryCheck p e).1 := by
  intro h
  rcases categoryCheck_fst_shape p e with hs | ⟨r, hs⟩ <;> rw [hs] at h
  · cases h
  · exact append_ne_of_head_ne _ _ _ _ rfl rfl (by decide) (List.mem_singleton.mp h)

theorem income_msg_notin_genderCheck (p : UserProfile) (e : EligibilityCriteria) (im : Int) :
    income_within_msg im ∉ (genderCheck p e).1 := by
  intro h
  rcases genderCheck_fst_shape p e with hs | ⟨r, hs⟩ <;> rw [hs] at h
  · cases h
  · exact append_ne_of_head_ne _ _ _ _ rfl rfl (by decide) (List.mem_singleton.mp h)

theorem income_msg_notin_occupationCheck (p : UserProfile) (e : EligibilityCriteria) (im : Int) :
    income_within_msg im ∉ (occupationCheck p e).1 := by
  intro h
  rcases occupationCheck_fst_shape p e with hs | ⟨r, hs⟩ <;> rw [hs] at h
  · cases h
  · exact append_ne_of_head_ne _ _ _ _ rfl rfl (by decide) (List.mem_singleton.mp h)

/-- The satisfied-income item occurs in the combined matching list iff the
income block produced it. -/
theorem income_msg_mem_iff (p : UserProfile) (s : Scheme) (m : Int) :
    income_within_msg m ∈ (check_single_scheme p s).matching_criteria ↔
      income_within_msg m ∈ (incomeCheck p s.eligibility).1 := by
  rw [matching_criteria_eq]
  simp [List.mem_append, income_msg_notin_ageCheck p s.eligibility m,
    income_msg_notin_stateCheck p s.eligibility m,
    income_msg_notin_educationCheck p s.eligibility m,
    income_msg_notin_categoryCheck p s.eligibility m,
    income_msg_notin_genderCheck p s.eligibility m,
    income_msg_notin_occupationCheck p s.eligibility m]

/-- The income block records the satisfied item iff the bracket's ceiling is a
finite value at most the constraint. -/
theorem incomeCheck_mem_iff {p : UserProfile} {e : EligibilityCriteria} {br : String}
    {m : Int} (hbr : p.income_range = some br) (hmax : e.income_max = some m) :
    income_within_msg m ∈ (incomeCheck p e).1 ↔
      ∃ c, INCOME_RANGES br = some c ∧ c ≤ m := by
  unfold incomeCheck
  rw [hmax, hbr]
  dsimp only
  rcases hir : INCOME_RANGES br with _ | u
  · simp
  · dsimp only
    split
    · rename_i hgt
      simp
      omega
    · rename_i hle
      simp [income_within_msg]
      omega

/-- C4: with a set income bracket and a finite `income_max`, the income
constraint is recorded as satisfied iff the bracket's mapped ceiling is a
finite value at most `income_max`; the top bracket maps to the unbounded
ceiling and never satisfies a finite `income_max`. -/
theorem C4_income_bracket_semantics (p : UserProfile) (s : Scheme) (br : String) (m : Int)
    (hbr : p.income_range = some br)
    (_hvocab : br ∈ ["below_1lakh", "1-3lakh", "3-5lakh", "5-8lakh", "above_8lakh"])
    (hmax : s.eligibility.income_max = some m) :
    (income_within_msg m ∈ (check_single_scheme p s).matching_criteria ↔
      ∃ c, INCOME_RANGES br = some c ∧ c ≤ m) ∧
    (br = "above_8lakh" →
      income_within_msg m ∉ (check_single_scheme p s).matching_criteria) := by
  have hmain := (income_msg_mem_iff p s m).trans (incomeCheck_mem_iff hbr hmax)
  refine ⟨hmain, fun htop hmem => ?_⟩
  obtain ⟨c, hc, -⟩ := hmain.mp hmem
  rw [htop] at hc
  cases hc

/-- Witness for C4: the `"1-3lakh"` bracket satisfies a 300000 ceiling. -/
theorem C4_income_bracket_semantics_witness :
    income_within_msg 300000 ∈
      (check_single_scheme incomeOnlyProfile incomeOnlyScheme).matching_criteria :=
  ((C4_income_bracket_semantics incomeOnlyProfile incomeOnlyScheme "1-3lakh" 300000
    rfl (by simp) rfl).1).mpr ⟨300000, rfl, by norm_num⟩

/-! ## C1: `determine_eligibility` ranks the eligible results stably -/

theorem rankLE_trans (a b c : EligibilityResult)
    (h1 : rankLE a b) (h2 : rankLE b c) : rankLE a c := by
  simp only [rankLE, decide_eq_true_eq] at h1 h2 ⊢
  omega

theorem rankLE_total (a b : EligibilityResult) : rankLE a b || rankLE b a := by
  simp only [rankLE, Bool.or_eq_true, decide_eq_true_eq]
  omega

/-- C1: `determine_eligibility` returns only eligible results; the output is
sorted by non-increasing count of matching criteria; it is a permutation of
the eligible results taken in catalog order; and any two results with equal
counts keep their relative catalog order (stability). -/
theorem C1_evaluate_all_ranked_stable (p : UserProfile) (schemes : List Scheme) :
    (∀ r ∈ determine_eligibility p schemes, r.is_eligible = true) ∧
    (determine_eligibility p schemes).Pairwise
      (fun a b => b.matching_criteria.length ≤ a.matching_criteria.length) ∧
    (determine_eligibility p schemes).Perm (eligible_results p schemes) ∧
    (∀ a b : EligibilityResult,
      a.matching_criteria.length = b.matching_criteria.length →
      [a, b].Sublist (eligible_results p schemes) →
      [a, b].Sublist (determine_eligibility p schemes)) := by
  refine ⟨?_, ?_, ?_, ?_⟩
  · intro r hr
    rw [determine_eligibility, List.mem_mergeSort] at hr
    exact List.of_mem_filter hr
  · have h := List.sorted_mergeSort rankLE_trans rankLE_total (eligible_results p schemes)
    exact h.imp (fun hab => by simpa [rankLE] using hab)
  · exact List.mergeSort_perm (eligible_results p schemes) rankLE
  · intro a b hlen hsub
    exact List.sublist_mergeSort rankLE_trans rankLE_total
      (List.pairwise_pair.mpr (by simp [rankLE, hlen.ge])) hsub

/-- Witness for C1 at two equally ranked schemes. -/
theorem C1_evaluate_all_ranked_stable_witness :
    (check_single_scheme ageOnlyProfile minAgeScheme1).is_eligible = true ∧
    [check_single_scheme ageOnlyProfile minAgeScheme1,
      check_single_scheme ageOnlyProfile minAgeScheme2].Sublist
        (determine_eligibility ageOnlyProfile [minAgeScheme1, minAgeScheme2]) := by
  have h := C1_evaluate_all_ranked_stable ageOnlyProfile [minAgeScheme1, minAgeScheme2]
  constructor
  · exact h.1 _ (h.2.2.1.mem_iff.mpr (List.Mem.head _))
  · exact h.2.2.2 _ _ rfl (List.Sublist.refl _)

/-! ## C5: the question loop follows the fixed priority order -/

/-- The session state reached after a fresh start and a run of
`get_next_question` calls that has recorded `asked`: stage advanced to
`info_collection`, profile still empty, greeting in the history. -/
def c5_state (asked : List String) (sid lang : String) (t : Int) : ConversationState :=
  { session_id := sid, language := lang, user_profile := emptyProfile,
    asked_questions := asked, current_stage := "info_collection",
    conversation_history := [⟨"assistant", greeting_text lang, t⟩],
    created_at := t, last_activity := t }

/-- C5: on a fresh session with no fields ever set, seven successive calls to
`get_next_question` return the localized prompts in the fixed priority order
age, state, education, income, category, gender, occupation; afterwards each
attribute name is recorded as asked exactly once, and an eighth call returns
`none`. -/
theorem C5_question_priority_order (sid lang : String) (t : Int) :
    (next_questions 7 (start_conversation sid lang t)).1 =
      [some (question_text "age" lang), some (question_text "state" lang),
       some (question_text "education_level" lang),
       some (question_text "income_range" lang), some (question_text "category" lang),
       some (question_text "gender" lang), some (question_text "occupation" lang)] ∧
    (next_questions 7 (start_conversation sid lang t)).2.asked_questions =
      ["age", "state", "education_level", "income_range", "category", "gender",
       "occupation"] ∧
    (next_questions 7 (start_conversation sid lang t)).2.asked_questions.Nodup ∧
    (get_next_question (next_questions 7 (start_conversation sid lang t)).2).2 = none := by
  have s0 : get_next_question (start_conversation sid lang t) =
      (c5_state ["age"] sid lang t, some (question_text "age" lang)) := rfl
  have s1 : get_next_question (c5_state ["age"] sid lang t) =
      (c5_state ["age", "state"] sid lang t, some (question_text "state" lang)) := rfl
  have s2 : get_next_question (c5_state ["age", "state"] sid lang t) =
      (c5_state ["age", "state", "education_level"] sid lang t,
       some (question_text "education_level" lang)) := rfl
  have s3 : get_next_question (c5_state ["age", "state", "education_level"] sid lang t) =
      (c5_state ["age", "state", "education_level", "income_range"] sid lang t,
       some (question_text "income_range" lang)) := rfl
  have s4 : get_next_question
      (c5_state ["age", "state", "education_level", "income_range"] sid lang t) =
      (c5_state ["age", "state", "education_level", "income_range", "category"] sid lang t,
       some (question_text "category" lang)) := rfl
  have s5 : get_next_question
      (c5_state ["age", "state", "education_level", "income_range", "category"]
        sid lang t) =
      (c5_state ["age", "state", "education_level", "income_range", "category", "gender"]
        sid lang t, some (question_text "gender" lang)) := rfl
  have s6 : get_next_question
      (c5_state ["age", "state", "education_level", "income_range", "category", "gender"]
        sid lang t) =
      (c5_state ["age", "state", "education_level", "income_range", "category", "gender",
        "occupation"] sid lang t, some (question_text "occupation" lang)) := rfl
  have s7 : get_next_question
      (c5_state ["age", "state", "education_level", "income_range", "category", "gender",
        "occupation"] sid lang t) =
      (c5_state ["age", "state", "education_level", "income_range", "category", "gender",
        "occupation"] sid lang t, none) := rfl
  have h7 : next_questions 7 (start_conversation sid lang t) =
      ([some (question_text "age" lang), some (question_text "state" lang),
        some (question_text "education_level" lang),
        some (question_text "income_range" lang), some (question_text "category" lang),
        some (question_text "gender" lang), some (question_text "occupation" lang)],
       c5_state ["age", "state", "education_level", "income_range", "category", "gender",
        "occupation"] sid lang t) := by
    show next_questions (0 + 1 + 1 + 1 + 1 + 1 + 1 + 1) (start_conversation sid lang t) = _
    simp only [next_questions, s0, s1, s2, s3, s4, s5, s6]
  refine ⟨by simp only [h7], by simp only [h7]; rfl, ?_, by simp only [h7, s7]⟩
  simp only [h7]
  show (["age", "state", "education_level", "income_range", "category", "gender",
    "occupation"] : List String).Nodup
  decide

/-! ## C6: lazy expiry on access -/

/-- After removing every entry keyed `sid`, looking `sid` up fails. -/
theorem lookup_filter_ne_none (sid : String) (l : List (String × ConversationState)) :
    (l.filter (fun kv => !(kv.1 == sid))).lookup sid = none := by
  induction l with
  | nil => rfl
  | cons kv t ih =>
    obtain ⟨k, v⟩ := kv
    by_cases h : k = sid
    · subst h
      simpa [List.filter_cons] using ih
    · have hks : (k == sid) = false := beq_eq_false_iff_ne.mpr h
      have hsk : (sid == k) = false := beq_eq_false_iff_ne.mpr (Ne.symm h)
      simpa [List.filter_cons, hks, List.lookup, hsk] using ih

/-- Removing the present, uniquely keyed entry shrinks the store by one. -/
theorem filter_ne_length (sid : String) (st : ConversationState)
    (l : List (String × ConversationState)) (hlk : l.lookup sid = some st)
    (hnd : (l.map Prod.fst).Nodup) :
    (l.filter (fun kv => !(kv.1 == sid))).length + 1 = l.length := by
  induction l with
  | nil => cases hlk
  | cons kv t ih =>
    obtain ⟨k, v⟩ := kv
    rw [List.map_cons, List.nodup_cons] at hnd
    by_cases h : k = sid
    · subst h
      have hall : t.filter (fun kv => !(kv.1 == k)) = t := by
        apply List.filter_eq_self.mpr
        rintro ⟨a1, a2⟩ ha
        have hne : a1 ≠ k := by
          intro hc
          apply hnd.1
          rw [← hc]
          exact List.mem_map.mpr ⟨(a1, a2), ha, rfl⟩
        simp [beq_eq_false_iff_ne.mpr hne]
      simp [List.filter_cons, hall]
    · have hks : (k == sid) = false := beq_eq_false_iff_ne.mpr h
      have hsk : (sid == k) = false := beq_eq_false_iff_ne.mpr (Ne.symm h)
      rw [List.lookup, hsk] at hlk
      simp only [List.filter_cons, hks, Bool.not_false, if_pos, List.length_cons]
      rw [ih hlk hnd.2]

/-- C6: a session strictly past the timeout is reported as not found by
`get_session` and removed from the store, shrinking the active-session count
by one; a session at or under the timeout is returned with the store
unchanged. -/
theorem C6_session_expiry (now : Int) (eng : ConversationEngine) (sid : String)
    (st : ConversationState) (hlk : eng.sessions.lookup sid = some st)
    (hnd : (eng.sessions.map Prod.fst).Nodup) :
    (now - st.last_activity > SESSION_TIMEOUT →
      (get_session now eng sid).2 = none ∧
      (get_session now eng sid).1.sessions.lookup sid = none ∧
      get_active_sessions_count (get_session now eng sid).1 + 1 =
        get_active_sessions_count eng) ∧
    (¬(now - st.last_activity > SESSION_TIMEOUT) →
      get_session now eng sid = (eng, some st)) := by
  constructor
  · intro hexp
    have hgs : get_session now eng sid =
        ((end_conversation eng sid).1, none) := by
      unfold get_session
      rw [hlk]
      dsimp only
      rw [if_pos hexp]
    have hec : (end_conversation eng sid).1 =
        { sessions := eng.sessions.filter (fun kv => !(kv.1 == sid)) } := by
      unfold end_conversation
      rw [hlk]
      rfl
    rw [hgs, hec]
    refine ⟨rfl, lookup_filter_ne_none sid eng.sessions, ?_⟩
    exact filter_ne_length sid st eng.sessions hlk hnd
  · intro hok
    unfold get_session
    rw [hlk]
    dsimp only
    rw [if_neg hok]

/-- Witness for C6: a session last active at time 0 read at time 2000. -/
theorem C6_session_expiry_witness :
    (get_session 2000 engineFixture "wsid").2 = none ∧
    get_active_sessions_count (get_session 2000 engineFixture "wsid").1 + 1 =
      get_active_sessions_count engineFixture := by
  have h := (C6_session_expiry 2000 engineFixture "wsid"
    (start_conversation "wsid" "en" 0) rfl (by decide)).1 (by decide)
  exact ⟨h.1, h.2.2⟩

/-! ## C7: which mutating operations refresh `last_activity`

`get_next_question` mutates `current_stage` and `asked_questions` but its
source contains no `datetime.now()` call, so it cannot refresh
`last_activity`; the counterexample below exhibits the mutation with the
timestamp left unchanged.  The other mutating operations do refresh it.
-/

/-- Counterexample to C7: on a fresh session, `get_next_question` advances the
stage and records an asked question — a state mutation — while
`last_activity` keeps its old value. -/
theorem C7_counterexample_get_next_question :
    ((get_next_question (start_conversation "c7" "en" 0)).1.asked_questions ≠
        (start_conversation "c7" "en" 0).asked_questions ∧
      (get_next_question (start_conversation "c7" "en" 0)).1.current_stage ≠
        (start_conversation "c7" "en" 0).current_stage) ∧
    (get_next_question (start_conversation "c7" "en" 0)).1.last_activity =
      (start_conversation "c7" "en" 0).last_activity := by
  refine ⟨⟨?_, ?_⟩, rfl⟩ <;> decide

/-- `get_next_question` never changes `last_activity`. -/
theorem get_next_question_keeps_last_activity (st : ConversationState) :
    (get_next_question st).1.last_activity = st.last_activity := by
  unfold get_next_question
  set st1 := if st.current_stage = "greeting"
    then { st with current_stage := "info_collection" } else st with hst1
  have h1 : st1.last_activity = st.last_activity := by
    rw [hst1]
    split <;> rfl
  by_cases h2 : st1.current_stage ≠ "info_collection"
  · rw [if_pos h2]
    exact h1
  · rw [if_neg h2]
    rcases hf : find_next_field st1.asked_questions (question_order st1.user_profile)
      with _ | name <;> exact h1

/-- C7 (amended): `update_user_profile` on a known field, message appends,
`start_conversation`, and the stage transitions all refresh `last_activity`
to the operation time, but `get_next_question` — which also mutates session
state — leaves `last_activity` unchanged. -/
theorem C7_amended_refresh_last_activity (now : Int) (st : ConversationState) :
    (∀ field v, field ∈ PROFILE_FIELDS →
      (update_user_profile now st field v).last_activity = now) ∧
    (∀ role content, (_add_message now st role content).last_activity = now) ∧
    (∀ content, (add_user_message now st content).last_activity = now) ∧
    (∀ content, (add_assistant_message now st content).last_activity = now) ∧
    (is_information_complete st = true →
      (transition_to_eligibility now st).last_activity = now) ∧
    ((transition_to_guidance now st).last_activity = now) ∧
    (∀ sid lang, (start_conversation sid lang now).last_activity = now) ∧
    ((get_next_question st).1.last_activity = st.last_activity) := by
  refine ⟨?_, fun _ _ => rfl, fun _ => rfl, fun _ => rfl, ?_, rfl, fun _ _ => rfl,
    get_next_question_keeps_last_activity st⟩
  · intro f v hf
    unfold update_user_profile
    rw [if_pos hf]
  · intro h
    unfold transition_to_eligibility
    rw [if_pos h]

/-- Witness for the amended C7 at a complete session. -/
theorem C7_amended_refresh_last_activity_witness :
    (update_user_profile 5 completeSession "age" (FieldValue.int 30)).last_activity = 5 ∧
    (transition_to_eligibility 5 completeSession).last_activity = 5 := by
  have h := C7_amended_refresh_last_activity 5 completeSession
  exact ⟨h.1 "age" (FieldValue.int 30) (by decide), h.2.2.2.2.1 (by decide)⟩

/-! ## C8: indexing an empty catalog fails without touching state -/

/-- C8: `index_schemes` on an empty entry list reports the capacity error and
returns the knowledge-base state exactly as it was: the `raise` precedes every
assignment to `self`. -/
theorem C8_empty_index_error (encode : String → List ℚ) (kb : KnowledgeBase) :
    index_schemes encode kb [] = (kb, some "Cannot index empty scheme list") := rfl

/-! ## C9: retrieval post-processing -/

/-- The collection loop takes, in order, the rows that pass the range guard
and the filters, converted to similarities, until `top_k - cnt` results. -/
theorem retrieveLoop_eq (schemes : List Scheme) (filters : Option Filters)
    (top_k : Nat) (hits : List (Nat × ℚ)) :
    ∀ cnt : Nat, cnt < top_k ∨ hits = [] →
      retrieveLoop schemes filters top_k cnt hits =
        ((hits.filter (passes schemes filters)).take (top_k - cnt)).map
          (fun h => (schemes.getD h.1 dummyScheme, similarity h.2)) := by
  induction hits with
  | nil => intro cnt _; simp [retrieveLoop]
  | cons hd rest ih =>
    obtain ⟨idx, d⟩ := hd
    intro cnt hcnt
    rcases hcnt with hcnt | hnil
    swap
    · cases hnil
    unfold retrieveLoop
    by_cases hidx : idx < schemes.length
    · rw [if_pos hidx]
      dsimp only
      by_cases hflt : loopSkips filters (schemes.getD idx dummyScheme) = true
      · rw [if_pos hflt]
        have hpass : passes schemes filters (idx, d) = false := by
          unfold passes
          rw [hflt]
          simp
        rw [List.filter_cons, hpass]
        simp only [Bool.false_eq_true, if_false]
        exact ih cnt (Or.inl hcnt)
      · rw [if_neg hflt]
        have hflt2 : loopSkips filters (schemes.getD idx dummyScheme) = false := by
          revert hflt
          cases loopSkips filters (schemes.getD idx dummyScheme) <;> simp
        have hpass : passes schemes filters (idx, d) = true := by
          unfold passes
          rw [hflt2]
          simp [hidx]
        rw [List.filter_cons, hpass]
        simp only [if_pos]
        obtain ⟨k, hk⟩ : ∃ k, top_k - cnt = k + 1 := ⟨top_k - cnt - 1, by omega⟩
        rw [hk, List.take_succ_cons, List.map_cons]
        by_cases hbrk : cnt + 1 ≥ top_k
        · rw [if_pos hbrk]
          have hk0 : k = 0 := by omega
          rw [hk0, List.take_zero, List.map_nil]
        · rw [if_neg hbrk]
          rw [ih (cnt + 1) (Or.inl (by omega))]
          have hkk : top_k - (cnt + 1) = k := by omega
          rw [hkk]
    · rw [if_neg hidx]
      have hpass : passes schemes filters (idx, d) = false := by
        simp [passes, hidx]
      rw [List.filter_cons, hpass]
      simp only [Bool.false_eq_true, if_false]
      exact ih cnt (Or.inl hcnt)

/-- C9: with an unbuilt index the query returns `[]`; otherwise the result is
exactly the filtered search rows, in the index's order, cut to `top_k` and
scored with `1 / (1 + d)`; hence at most `top_k` results, every score in
`(0, 1]`, and the score is monotonically decreasing in the distance. -/
theorem C9_retrieve_schemes (kb : KnowledgeBase) (hits : List (Nat × ℚ)) (top_k : Nat)
    (filters : Option Filters)
    (hlen : hits.length ≤ top_k * 2)
    (hpos : ∀ x ∈ hits, 0 ≤ x.2) :
    (kb.schemes.isEmpty = true → retrieve_schemes kb hits top_k filters = []) ∧
    retrieve_schemes kb hits top_k filters =
      ((hits.filter (passes kb.schemes filters)).take top_k).map
        (fun h => (kb.schemes.getD h.1 dummyScheme, similarity h.2)) ∧
    (retrieve_schemes kb hits top_k filters).length ≤ top_k ∧
    (∀ x ∈ retrieve_schemes kb hits top_k filters, 0 < x.2 ∧ x.2 ≤ 1) ∧
    (∀ d1 d2 : ℚ, 0 ≤ d1 → d1 ≤ d2 → similarity d2 ≤ similarity d1) := by
  have hchar : retrieve_schemes kb hits top_k filters =
      ((hits.filter (passes kb.schemes filters)).take top_k).map
        (fun h => (kb.schemes.getD h.1 dummyScheme, similarity h.2)) := by
    unfold retrieve_schemes
    by_cases hemp : kb.schemes.isEmpty
    · rw [if_pos hemp]
      have h0 : kb.schemes.length = 0 := by
        rw [List.isEmpty_iff] at hemp
        simp [hemp]
      have hfil : hits.filter (passes kb.schemes filters) = [] := by
        apply List.filter_eq_nil_iff.mpr
        intro a _
        simp [passes, h0]
      rw [hfil]
      simp
    · rw [if_neg hemp]
      rcases Nat.eq_zero_or_pos top_k with h0 | h0
      · have hn : hits = [] := by
          subst h0
          simpa using List.eq_nil_of_length_eq_zero (Nat.le_zero.mp hlen)
        subst hn
        simp [retrieveLoop]
      · have hloop := retrieveLoop_eq kb.schemes filters top_k hits 0 (Or.inl h0)
        rwa [Nat.sub_zero] at hloop
  have hsim : ∀ d : ℚ, 0 ≤ d → 0 < similarity d ∧ similarity d ≤ 1 := by
    intro d hd
    unfold similarity
    have hpos1 : (0 : ℚ) < 1 + d := by linarith
    constructor
    · exact div_pos one_pos hpos1
    · rw [div_le_one hpos1]
      linarith
  refine ⟨?_, hchar, ?_, ?_, ?_⟩
  · intro hemp
    unfold retrieve_schemes
    rw [if_pos hemp]
  · rw [hchar, List.length_map, List.length_take]
    exact min_le_left _ _
  · intro x hx
    rw [hchar] at hx
    obtain ⟨h, hh, hxh⟩ := List.mem_map.mp hx
    have hmem : h ∈ hits :=
      List.mem_of_mem_filter (List.mem_of_mem_take hh)
    have hs := hsim h.2 (hpos h hmem)
    rw [← hxh]
    exact hs
  · intro d1 d2 hd1 hd12
    unfold similarity
    have h1 : (0 : ℚ) < 1 + d1 := by linarith
    have h2 : (1 : ℚ) + d1 ≤ 1 + d2 := by linarith
    exact one_div_le_one_div_of_le h1 h2

/-- Witness for C9 at a two-scheme base and two search rows. -/
theorem C9_retrieve_schemes_witness :
    (retrieve_schemes kbFixture [(0, 1), (1, 3)] 1 none).length ≤ 1 := by
  have h := C9_retrieve_schemes kbFixture [(0, 1), (1, 3)] 1 none (by norm_num)
    (by
      intro x hx
      simp only [List.mem_cons, List.mem_singleton] at hx
      rcases hx with rfl | rfl | hx
      · norm_num
      · norm_num
      · simp at hx)
  exact h.2.2.1

/-! ## C10: the `category` filter key is inert -/

/-- The collection loop only sees the filters through `_matches_filters`. -/
theorem retrieveLoop_congr (schemes : List Scheme) (f g : Filters) (top_k : Nat)
    (hfg : ∀ s, _matches_filters s f = _matches_filters s g) (hits : List (Nat × ℚ)) :
    ∀ cnt, retrieveLoop schemes (some f) top_k cnt hits =
      retrieveLoop schemes (some g) top_k cnt hits := by
  have hskip : ∀ s, loopSkips (some f) s = loopSkips (some g) s := by
    intro s
    simp [loopSkips, hfg s]
  induction hits with
  | nil => intro cnt; rfl
  | cons hd rest ih =>
    obtain ⟨idx, d⟩ := hd
    intro cnt
    unfold retrieveLoop
    by_cases hidx : idx < schemes.length
    · rw [if_pos hidx, if_pos hidx]
      dsimp only
      rw [hskip (schemes.getD idx dummyScheme)]
      by_cases hflt : loopSkips (some g) (schemes.getD idx dummyScheme) = true
      · rw [if_pos hflt, if_pos hflt]
        exact ih cnt
      · rw [if_neg hflt, if_neg hflt]
        by_cases hbrk : cnt + 1 ≥ top_k
        · rw [if_pos hbrk, if_pos hbrk]
        · rw [if_neg hbrk, if_neg hbrk, ih (cnt + 1)]
    · rw [if_neg hidx, if_neg hidx]
      exact ih cnt

/-- C10: a `"category"` filter entry never drops a candidate:
`_matches_filters` ignores the `category` key entirely, and `retrieve_schemes`
returns the same results whatever the `category` value is. -/
theorem C10_category_filter_ignored (s : Scheme) (f : Filters) (c : Option String) :
    _matches_filters s { f with category := c } = _matches_filters s f ∧
    (∀ (kb : KnowledgeBase) (hits : List (Nat × ℚ)) (top_k : Nat),
      retrieve_schemes kb hits top_k (some { f with category := c }) =
        retrieve_schemes kb hits top_k (some f)) := by
  refine ⟨rfl, ?_⟩
  intro kb hits top_k
  unfold retrieve_schemes
  by_cases hemp : kb.schemes.isEmpty
  · rw [if_pos hemp, if_pos hemp]
  · rw [if_neg hemp, if_neg hemp]
    exact retrieveLoop_congr kb.schemes { f with category := c } f top_k
      (fun _ => rfl) hits 0

end Bharatam



